import Mathlib

/-!
Shallow embedding of src/memtrack.cpp (libmemtrack): data model, provider
interfaces, the per-type record fetcher, the populate loop, and the
aggregation primitive, together with theorems settling the spec claims.
-/

namespace Memtrack

/-- Logical memory categories, from the V1_0 MemtrackType enum (OTHER, GL,
GRAPHICS, MULTIMEDIA, CAMERA; NUM_TYPES is the sentinel count). -/
inductive MemtrackType where
  | OTHER
  | GL
  | GRAPHICS
  | MULTIMEDIA
  | CAMERA
deriving DecidableEq, Repr

/-- Sentinel count of memory types (MemtrackType::NUM_TYPES). -/
def NUM_TYPES : Nat := 5

/-- The fixed enumeration order walked by the populate loop in
memtrack_proc_get: (MemtrackType)i for i = 0 .. NUM_TYPES-1. -/
def allTypes : List MemtrackType :=
  [.OTHER, .GL, .GRAPHICS, .MULTIMEDIA, .CAMERA]

/-- The flag bits of a memory record (V1_0 MemtrackFlag). -/
inductive MemtrackFlag where
  | SMAPS_ACCOUNTED
  | SMAPS_UNACCOUNTED
  | SHARED
  | SHARED_PSS
  | PRIVATE
  | SYSTEM
  | DEDICATED
  | NONSECURE
  | SECURE
deriving DecidableEq, Repr

namespace V1_0

/-- Modelled from the spec: the numeric encoding of the legacy (HIDL V1_0)
MemtrackFlag enum, defined in hardware/interfaces (types.hal), which is not
part of this repository; the spec requires these bit positions to agree with
the modern interface and the source asserts it with static_assert. -/
def flagValue : MemtrackFlag → Nat
  | .SMAPS_ACCOUNTED => 2
  | .SMAPS_UNACCOUNTED => 4
  | .SHARED => 8
  | .SHARED_PSS => 16
  | .PRIVATE => 32
  | .SYSTEM => 64
  | .DEDICATED => 128
  | .NONSECURE => 256
  | .SECURE => 512

/-- Modelled from the spec: the numeric encoding of the legacy (HIDL V1_0)
MemtrackType enum (types.hal, outside this repository). -/
def typeValue : MemtrackType → Nat
  | .OTHER => 0
  | .GL => 1
  | .GRAPHICS => 2
  | .MULTIMEDIA => 3
  | .CAMERA => 4

end V1_0

namespace V_aidl

/-- Modelled from the spec: the numeric encoding of the modern (AIDL)
MemtrackRecord FLAG_* constants (MemtrackRecord.aidl, outside this
repository). -/
def flagValue : MemtrackFlag → Nat
  | .SMAPS_ACCOUNTED => 2
  | .SMAPS_UNACCOUNTED => 4
  | .SHARED => 8
  | .SHARED_PSS => 16
  | .PRIVATE => 32
  | .SYSTEM => 64
  | .DEDICATED => 128
  | .NONSECURE => 256
  | .SECURE => 512

/-- Modelled from the spec: the numeric encoding of the modern (AIDL)
MemtrackType enum (MemtrackType.aidl, outside this repository). -/
def typeValue : MemtrackType → Nat
  | .OTHER => 0
  | .GL => 1
  | .GRAPHICS => 2
  | .MULTIMEDIA => 3
  | .CAMERA => 4

end V_aidl

/-- V1_0 MemtrackRecord: uint64_t sizeInBytes, uint32_t flags bitset.
Sizes are non-negative, so both fields are modelled as Nat. -/
structure MemtrackRecord where
  sizeInBytes : Nat
  flags : Nat
deriving DecidableEq, Repr

/-- AIDL MemtrackRecord as produced by the modern provider (long sizeInBytes,
int flags; sizes are non-negative per the data model). Kept as a distinct
type so the fetcher's field-by-field normalization is explicit. -/
structure AidlMemtrackRecord where
  sizeInBytes : Nat
  flags : Nat
deriving DecidableEq, Repr

/-- struct memtrack_proc_type: a memory type together with its fetched
record list. -/
structure memtrack_proc_type where
  type : MemtrackType
  records : List MemtrackRecord
deriving DecidableEq, Repr

instance : Inhabited memtrack_proc_type := ⟨⟨.OTHER, []⟩⟩

/-- struct memtrack_proc: a pid and the per-type storage array (indexed by
the type code, of size NUM_TYPES). -/
structure memtrack_proc where
  pid : Int
  types : MemtrackType → memtrack_proc_type

/-- memtrack_proc_new: new memtrack_proc() value-initializes the struct:
pid is 0 and every per-type slot holds type code 0 and an empty record
vector. -/
def memtrack_proc_new : memtrack_proc :=
  { pid := 0, types := fun _ => { type := .OTHER, records := [] } }

/-- V1_0 MemtrackStatus values reported to the legacy callback. -/
inductive MemtrackStatus where
  | SUCCESS
  | MEMORY_TRACKING_NOT_SUPPORTED
  | TYPE_NOT_SUPPORTED
deriving DecidableEq, Repr

/-- The modern (AIDL) provider: getMemory(pid, type, &records) either
succeeds with a record list or fails (status not ok, covering both service
and transport failures, which the source treats identically). -/
structure AidlService where
  getMemory : Int → MemtrackType → Option (List AidlMemtrackRecord)

/-- The legacy (HIDL V1_0) provider: getMemory(pid, type, callback). none
models a transport-level failure of the call itself (Return not ok, the
callback never runs); some (status, records) models the callback being
invoked with that status and record list. -/
structure HidlService where
  getMemory : Int → MemtrackType → Option (MemtrackStatus × List MemtrackRecord)

/-- The provider environment: what get_aidl_instance and get_hidl_instance
resolve to (none when the respective provider is unavailable). -/
structure Env where
  aidl : Option AidlService
  hidl : Option HidlService

/-- Which provider a getMemory call was issued to (for the call trace). -/
inductive Provider where
  | aidl
  | hidl
deriving DecidableEq, Repr

/-- memtrack_proc_get_type: fetch one type's records into the per-type slot.
Returns the error code, the updated slot, and the trace of provider calls
issued. Mirrors the source: prefer the AIDL service; on its failure return
-1 with the slot untouched; otherwise copy the records field by field.
With no AIDL service, use the HIDL service if present: transport failure
leaves the slot untouched and returns -1; otherwise the callback sets
err = -1 on a non-success status (and resizes to zero), then unconditionally
resizes to the callback's record count and copies the records field by
field, so the slot ends up holding the callback's records either way. -/
def memtrack_proc_get_type (env : Env) (t : memtrack_proc_type) (pid : Int)
    (ty : MemtrackType) : Int × memtrack_proc_type × List (Provider × MemtrackType) :=
  match env.aidl with
  | some service =>
      match service.getMemory pid ty with
      | none => (-1, t, [(.aidl, ty)])
      | some records =>
          (0, { t with records := records.map (fun r => ⟨r.sizeInBytes, r.flags⟩) },
            [(.aidl, ty)])
  | none =>
      match env.hidl with
      | none => (-1, t, [])
      | some memtrack =>
          match memtrack.getMemory pid ty with
          | none => (-1, t, [(.hidl, ty)])
          | some (status, records) =>
              let err : Int := if status = .SUCCESS then 0 else -1
              (err, { t with records := records.map (fun r => ⟨r.sizeInBytes, r.flags⟩) },
                [(.hidl, ty)])

/-- The error code of a per-type fetch; memtrack_proc_get_type's error does
not depend on the incoming slot contents. -/
def fetchErr (env : Env) (pid : Int) (ty : MemtrackType) : Int :=
  (memtrack_proc_get_type env default pid ty).1

/-- memtrack_proc_sanity_check: the stubbed, always-passing validation hook. -/
def memtrack_proc_sanity_check (_p : memtrack_proc) : Int := 0

/-- The errno constant EINVAL. -/
def EINVAL : Int := 22

/-- The populate loop body of memtrack_proc_get: walk the given types in
order, fetch each into its slot, and stop at the first nonzero error,
returning it. Also returns the list of types for which a fetch was
attempted, in order. -/
def populateTypes (env : Env) (pid : Int) :
    memtrack_proc → List MemtrackType → Int × memtrack_proc × List MemtrackType
  | p, [] => (0, p, [])
  | p, ty :: rest =>
      let r := memtrack_proc_get_type env (p.types ty) pid ty
      let p' : memtrack_proc := { p with types := Function.update p.types ty r.2.1 }
      if r.1 ≠ 0 then (r.1, p', [ty])
      else
        let s := populateTypes env pid p' rest
        (s.1, s.2.1, ty :: s.2.2)

/-- memtrack_proc_get: populate a snapshot for a pid. A null snapshot
pointer (none) yields -EINVAL with no fetch attempted; otherwise the pid is
stored and every type is fetched in enumeration order, stopping at the
first error; on full success the result is the sanity-check stub's result.
The third component is the list of types for which a fetch was attempted. -/
def memtrack_proc_get (env : Env) (p : Option memtrack_proc) (pid : Int) :
    Int × Option memtrack_proc × List MemtrackType :=
  match p with
  | none => (-EINVAL, none, [])
  | some p =>
      let p := { p with pid := pid }
      let s := populateTypes env pid p allTypes
      if s.1 ≠ 0 then (s.1, some s.2.1, s.2.2)
      else (memtrack_proc_sanity_check s.2.1, some s.2.1, s.2.2)

/-- memtrack_proc_sum: over each given type's stored records, add
sizeInBytes to the running total when (flags & mask) == mask. -/
def memtrack_proc_sum (p : memtrack_proc) (types : List MemtrackType)
    (flags : Nat) : Int :=
  types.foldl (fun sum ty =>
    (p.types ty).records.foldl (fun sum r =>
      if r.flags &&& flags = flags then sum + (r.sizeInBytes : Int) else sum) sum) 0

/-- memtrack_proc_graphics_total. -/
def memtrack_proc_graphics_total (p : memtrack_proc) : Int :=
  memtrack_proc_sum p [.GRAPHICS] 0

/-- memtrack_proc_graphics_pss. -/
def memtrack_proc_graphics_pss (p : memtrack_proc) : Int :=
  memtrack_proc_sum p [.GRAPHICS] (V1_0.flagValue .SMAPS_UNACCOUNTED)

/-- memtrack_proc_gl_total. -/
def memtrack_proc_gl_total (p : memtrack_proc) : Int :=
  memtrack_proc_sum p [.GL] 0

/-- memtrack_proc_gl_pss. -/
def memtrack_proc_gl_pss (p : memtrack_proc) : Int :=
  memtrack_proc_sum p [.GL] (V1_0.flagValue .SMAPS_UNACCOUNTED)

/-- memtrack_proc_other_total. -/
def memtrack_proc_other_total (p : memtrack_proc) : Int :=
  memtrack_proc_sum p [.MULTIMEDIA, .CAMERA, .OTHER] 0

/-- memtrack_proc_other_pss. -/
def memtrack_proc_other_pss (p : memtrack_proc) : Int :=
  memtrack_proc_sum p [.MULTIMEDIA, .CAMERA, .OTHER] (V1_0.flagValue .SMAPS_UNACCOUNTED)

/-- Stated from the spec's words, for comparison with memtrack_proc_sum:
the sum of sizeInBytes over exactly those records stored under the given
types whose flags contain the whole required mask. -/
def specSum (p : memtrack_proc) (types : List MemtrackType) (flags : Nat) : Int :=
  (types.map (fun ty =>
    (((p.types ty).records.filter (fun r => r.flags &&& flags == flags)).map
      (fun r => (r.sizeInBytes : Int))).sum)).sum

/-- The inner loop of memtrack_proc_sum over one record list equals the
accumulator plus the sum of sizes of the records containing the mask. -/
theorem records_foldl_sum (flags : Nat) (rs : List MemtrackRecord) (a : Int) :
    rs.foldl (fun sum r =>
        if r.flags &&& flags = flags then sum + (r.sizeInBytes : Int) else sum) a
      = a + ((rs.filter (fun r => r.flags &&& flags == flags)).map
          (fun r => (r.sizeInBytes : Int))).sum := by
  induction rs generalizing a with
  | nil => simp
  | cons r rs ih =>
      by_cases h : r.flags &&& flags = flags
      · simp [List.filter_cons, h, ih, add_assoc]
      · simp [List.filter_cons, h, ih]

/-- The outer loop of memtrack_proc_sum equals the accumulator plus the
spec-side sum. -/
theorem types_foldl_sum (p : memtrack_proc) (flags : Nat)
    (types : List MemtrackType) :
    ∀ a : Int,
      types.foldl (fun sum ty =>
          (p.types ty).records.foldl (fun sum r =>
            if r.flags &&& flags = flags then sum + (r.sizeInBytes : Int) else sum)
            sum) a
        = a + specSum p types flags := by
  induction types with
  | nil => intro a; simp [specSum]
  | cons ty rest ih =>
      intro a
      simp only [List.foldl_cons]
      rw [records_foldl_sum, ih]
      simp [specSum, add_assoc]

/-- C1: memtrack_proc_sum returns the sum of sizeInBytes over exactly those
records stored under the given types whose flags contain the whole required
mask (a record whose flags merely overlap the mask is excluded by the
filter), and a zero mask includes every record of the selected types exactly
once. -/
theorem memtrack_proc_sum_correct (p : memtrack_proc)
    (types : List MemtrackType) (flags : Nat) :
    memtrack_proc_sum p types flags = specSum p types flags ∧
    memtrack_proc_sum p types 0 =
      (types.map (fun ty =>
        ((p.types ty).records.map (fun r => (r.sizeInBytes : Int))).sum)).sum := by
  constructor
  · rw [memtrack_proc_sum, types_foldl_sum]; simp
  · rw [memtrack_proc_sum, types_foldl_sum]
    simp [specSum]

/-- C7: the sum over a list of types equals the sum of the per-type sums
taken individually with the same mask. -/
theorem memtrack_proc_sum_additive (p : memtrack_proc)
    (types : List MemtrackType) (flags : Nat) :
    memtrack_proc_sum p types flags
      = (types.map (fun ty => memtrack_proc_sum p [ty] flags)).sum := by
  have hmain : memtrack_proc_sum p types flags = specSum p types flags := by
    rw [memtrack_proc_sum, types_foldl_sum]; simp
  have hsingle : ∀ ty, memtrack_proc_sum p [ty] flags = specSum p [ty] flags := by
    intro ty; rw [memtrack_proc_sum, types_foldl_sum]; simp
  rw [hmain]
  simp [specSum, hsingle]

/-- C2: each of the six public category queries equals the generic sum
primitive applied to its fixed type set and mask. -/
theorem category_queries_eq_sum (p : memtrack_proc) :
    memtrack_proc_graphics_total p = memtrack_proc_sum p [.GRAPHICS] 0 ∧
    memtrack_proc_graphics_pss p
      = memtrack_proc_sum p [.GRAPHICS] (V1_0.flagValue .SMAPS_UNACCOUNTED) ∧
    memtrack_proc_gl_total p = memtrack_proc_sum p [.GL] 0 ∧
    memtrack_proc_gl_pss p
      = memtrack_proc_sum p [.GL] (V1_0.flagValue .SMAPS_UNACCOUNTED) ∧
    memtrack_proc_other_total p
      = memtrack_proc_sum p [.MULTIMEDIA, .CAMERA, .OTHER] 0 ∧
    memtrack_proc_other_pss p
      = memtrack_proc_sum p [.MULTIMEDIA, .CAMERA, .OTHER]
          (V1_0.flagValue .SMAPS_UNACCOUNTED) :=
  ⟨rfl, rfl, rfl, rfl, rfl, rfl⟩

/-- C10: on a freshly created snapshot every per-type record list is empty
and all six category queries return 0. -/
theorem fresh_snapshot_queries_zero :
    (∀ ty, (memtrack_proc_new.types ty).records = []) ∧
    memtrack_proc_graphics_total memtrack_proc_new = 0 ∧
    memtrack_proc_graphics_pss memtrack_proc_new = 0 ∧
    memtrack_proc_gl_total memtrack_proc_new = 0 ∧
    memtrack_proc_gl_pss memtrack_proc_new = 0 ∧
    memtrack_proc_other_total memtrack_proc_new = 0 ∧
    memtrack_proc_other_pss memtrack_proc_new = 0 :=
  ⟨fun _ => rfl, rfl, rfl, rfl, rfl, rfl, rfl⟩

/-- The error code of memtrack_proc_get_type does not depend on the incoming
slot contents. -/
theorem get_type_fst (env : Env) (t : memtrack_proc_type) (pid : Int)
    (ty : MemtrackType) :
    (memtrack_proc_get_type env t pid ty).1 = fetchErr env pid ty := by
  rcases env with ⟨aidl, hidl⟩
  cases aidl with
  | some s =>
      cases hg : s.getMemory pid ty <;>
        simp [fetchErr, memtrack_proc_get_type, hg]
  | none =>
      cases hidl with
      | none => rfl
      | some m =>
          cases hg : m.getMemory pid ty with
          | none => simp [fetchErr, memtrack_proc_get_type, hg]
          | some v =>
              rcases v with ⟨st, rs⟩
              simp [fetchErr, memtrack_proc_get_type, hg]

/-- The populate loop run on a type list that splits as ts1 (all fetches
succeeding) followed by a failing type stops right after the failing type:
it returns that error and attempts exactly the fetches for ts1 ++ [ty]. -/
theorem populateTypes_first_error (env : Env) (pid : Int) (ty : MemtrackType)
    (ts2 : List MemtrackType) (hfail : fetchErr env pid ty ≠ 0)
    (ts1 : List MemtrackType) :
    (∀ t' ∈ ts1, fetchErr env pid t' = 0) →
    ∀ p : memtrack_proc,
      (populateTypes env pid p (ts1 ++ ty :: ts2)).1 = fetchErr env pid ty ∧
      (populateTypes env pid p (ts1 ++ ty :: ts2)).2.2 = ts1 ++ [ty] := by
  induction ts1 with
  | nil =>
      intro _ p
      simp only [List.nil_append, populateTypes, get_type_fst]
      rw [if_pos hfail]
      exact ⟨rfl, rfl⟩
  | cons t1 rest ih =>
      intro hok p
      have h1 : fetchErr env pid t1 = 0 := hok t1 (by simp)
      have ih' := ih (fun t' ht' => hok t' (by simp [ht']))
      simp only [List.cons_append, populateTypes, get_type_fst, h1]
      rw [if_neg (by simp)]
      have ihp := ih'
        { p with types := Function.update p.types t1 (memtrack_proc_get_type env (p.types t1) pid t1).2.1 }
      exact ⟨ihp.1, congrArg (List.cons t1) ihp.2⟩

/-- C3: when the types enumerate as ts1 (whose fetches all succeed) followed
by a first failing type, memtrack_proc_get returns that type's error and the
fetches attempted are exactly those for ts1 and the failing type, in
enumeration order: no fetch is attempted for any later type. -/
theorem memtrack_proc_get_first_error (env : Env) (pid : Int)
    (p : memtrack_proc) (ts1 : List MemtrackType) (ty : MemtrackType)
    (ts2 : List MemtrackType)
    (hsplit : allTypes = ts1 ++ ty :: ts2)
    (hok : ∀ t' ∈ ts1, fetchErr env pid t' = 0)
    (hfail : fetchErr env pid ty ≠ 0) :
    (memtrack_proc_get env (some p) pid).1 = fetchErr env pid ty ∧
    (memtrack_proc_get env (some p) pid).2.2 = ts1 ++ [ty] := by
  have h := populateTypes_first_error env pid ty ts2 hfail ts1 hok
    { p with pid := pid }
  simp only [memtrack_proc_get, hsplit]
  rw [if_pos (by rw [h.1]; exact hfail)]
  exact ⟨h.1, h.2⟩

/-- Environment whose modern provider succeeds with an empty list for every
type except GRAPHICS, where the call fails. -/
def envFirstError : Env :=
  { aidl := some ⟨fun _ ty => if ty = .GRAPHICS then none else some []⟩,
    hidl := none }

/-- Witness for C3: with a provider failing first at GRAPHICS, populate
returns that error and fetches exactly OTHER, GL, GRAPHICS. -/
theorem memtrack_proc_get_first_error_witness :
    (memtrack_proc_get envFirstError (some memtrack_proc_new) 42).1
        = fetchErr envFirstError 42 .GRAPHICS ∧
    (memtrack_proc_get envFirstError (some memtrack_proc_new) 42).2.2
        = [.OTHER, .GL] ++ [.GRAPHICS] :=
  memtrack_proc_get_first_error envFirstError 42 memtrack_proc_new
    [.OTHER, .GL] .GRAPHICS [.MULTIMEDIA, .CAMERA] rfl (by decide) (by decide)

/-- C8: with neither provider resolvable, a per-type fetch returns -1
immediately, leaves the slot untouched, and issues no provider call. -/
theorem no_provider_fetch_fails (env : Env) (t : memtrack_proc_type)
    (pid : Int) (ty : MemtrackType)
    (ha : env.aidl = none) (hh : env.hidl = none) :
    memtrack_proc_get_type env t pid ty = (-1, t, []) := by
  unfold memtrack_proc_get_type
  rw [ha, hh]

/-- Environment with no provider at all. -/
def envNoProvider : Env := { aidl := none, hidl := none }

/-- Witness for C8: the fetch with no provider available returns -1 with no
call issued. -/
theorem no_provider_fetch_fails_witness :
    memtrack_proc_get_type envNoProvider ⟨.OTHER, []⟩ 7 .GL
      = (-1, ⟨.OTHER, []⟩, []) :=
  no_provider_fetch_fails envNoProvider ⟨.OTHER, []⟩ 7 .GL rfl rfl

/-- C5 amended: memtrack_proc_get reports -EINVAL before any fetch is
attempted exactly when the snapshot pointer is null; the pid value itself is
not validated. -/
theorem null_snapshot_rejected (env : Env) (pid : Int) :
    memtrack_proc_get env none pid = (-EINVAL, none, []) := rfl

/-- Environment whose modern provider succeeds with an empty record list for
every pid and type. -/
def envAcceptAll : Env := { aidl := some ⟨fun _ _ => some []⟩, hidl := none }

/-- Counterexample to C5 as stated: populate with the negative pid -1 does
not report an invalid-argument error; it returns 0 and attempts a fetch for
every type. -/
theorem negative_pid_not_rejected :
    (memtrack_proc_get envAcceptAll (some memtrack_proc_new) (-1)).1 = 0 ∧
    (memtrack_proc_get envAcceptAll (some memtrack_proc_new) (-1)).1 ≠ -EINVAL ∧
    (memtrack_proc_get envAcceptAll (some memtrack_proc_new) (-1)).2.2 = allTypes :=
  ⟨rfl, by decide, rfl⟩

/-- Mapping a record list field by field onto itself is the identity. -/
theorem map_reform_id (rs : List MemtrackRecord) :
    rs.map (fun r => (⟨r.sizeInBytes, r.flags⟩ : MemtrackRecord)) = rs := by
  induction rs with
  | nil => rfl
  | cons r rs ih => cases r; simp [ih]

/-- C6: on a successful fetch the stored record list is the raw list passed
through the field-by-field copy, preserving sizeInBytes and flags exactly,
for both the modern (AIDL) and the legacy (HIDL) provider path. -/
theorem fetch_preserves_records (env : Env) (t : memtrack_proc_type)
    (pid : Int) (ty : MemtrackType) :
    (∀ (s : AidlService) (raws : List AidlMemtrackRecord),
        env.aidl = some s → s.getMemory pid ty = some raws →
        (memtrack_proc_get_type env t pid ty).2.1.records
          = raws.map (fun r => ⟨r.sizeInBytes, r.flags⟩)) ∧
    (∀ (m : HidlService) (st : MemtrackStatus) (raws : List MemtrackRecord),
        env.aidl = none → env.hidl = some m →
        m.getMemory pid ty = some (st, raws) →
        (memtrack_proc_get_type env t pid ty).2.1.records = raws) := by
  constructor
  · intro s raws ha hg
    simp only [memtrack_proc_get_type, ha, hg]
  · intro m st raws ha hh hg
    simp only [memtrack_proc_get_type, ha, hh, hg]
    simp [map_reform_id]

/-- Environment whose modern provider answers every query with two fixed
records. -/
def envAidlOk : Env :=
  { aidl := some ⟨fun _ _ => some [⟨100, 2⟩, ⟨50, 20⟩]⟩, hidl := none }

/-- Environment whose legacy provider answers every query with SUCCESS and
two fixed records. -/
def envHidlOk : Env :=
  { aidl := none, hidl := some ⟨fun _ _ => some (.SUCCESS, [⟨100, 2⟩, ⟨50, 20⟩])⟩ }

/-- Witness for C6: concrete records pass through both provider paths with
sizes and flags intact. -/
theorem fetch_preserves_records_witness :
    (memtrack_proc_get_type envAidlOk ⟨.OTHER, []⟩ 3 .GL).2.1.records
        = ([⟨100, 2⟩, ⟨50, 20⟩] : List AidlMemtrackRecord).map
            (fun r => ⟨r.sizeInBytes, r.flags⟩) ∧
    (memtrack_proc_get_type envHidlOk ⟨.OTHER, []⟩ 3 .GL).2.1.records
        = [⟨100, 2⟩, ⟨50, 20⟩] :=
  ⟨(fetch_preserves_records envAidlOk ⟨.OTHER, []⟩ 3 .GL).1 _ _ rfl rfl,
   (fetch_preserves_records envHidlOk ⟨.OTHER, []⟩ 3 .GL).2 _ .SUCCESS _ rfl rfl rfl⟩

/-- C9: the legacy (HIDL V1_0) and modern (AIDL) numeric encodings agree on
every MemtrackType value and every MemtrackFlag bit. -/
theorem encodings_agree :
    (∀ f : MemtrackFlag, V1_0.flagValue f = V_aidl.flagValue f) ∧
    (∀ ty : MemtrackType, V1_0.typeValue ty = V_aidl.typeValue ty) :=
  ⟨fun f => by cases f <;> rfl, fun ty => by cases ty <;> rfl⟩

/-- Environment whose legacy provider invokes the callback with a
non-success status and a non-empty record list. -/
def envLegacyFail : Env :=
  { aidl := none,
    hidl := some ⟨fun _ _ => some (.TYPE_NOT_SUPPORTED, [⟨5, 0⟩])⟩ }

/-- C4 failing input: when the legacy callback reports a non-success status
together with a record list, the fetch does report the error (-1), but the
per-type slot ends up holding the callback's records rather than the empty
list the specified contract requires: the resize-to-zero on failure is
immediately overwritten by the unconditional copy that follows it. -/
theorem legacy_failure_keeps_callback_records :
    (memtrack_proc_get_type envLegacyFail ⟨.OTHER, []⟩ 1 .GL).1 = -1 ∧
    (memtrack_proc_get_type envLegacyFail ⟨.OTHER, []⟩ 1 .GL).2.1.records
      = [⟨5, 0⟩] ∧
    (memtrack_proc_get_type envLegacyFail ⟨.OTHER, []⟩ 1 .GL).2.1.records ≠ [] :=
  ⟨rfl, rfl, by decide⟩

end Memtrack
